import Mathlib

/-!
Verification of the client-side orchestrator of the whisper-web-app repository
(`frontend/script.js`), shallowly embedded in Lean 4.

Conventions of the embedding:
* JS numbers used as byte counts, indices and HTTP statuses are `Nat`;
  progress percentages (which receive fractional pseudo-random increments)
  are `ℚ`.
* `Math.floor(Math.log b / Math.log 1024)` is modelled by its exact
  mathematical value `Nat.log 1024 b`.
* `parseFloat(x.toFixed(2))` is modelled by rounding to a rational with two
  decimal digits and printing it without trailing zeros (`renderFixed2`).
* DOM state touched by the script (progress bar width, section visibility,
  result text and error class) is an explicit record `AppState`; the
  recording globals (`mediaRecorder`, `recordedChunks`, `recordingTimer`,
  `recordingStartTime`) are an explicit record `RecordingSession`.
* `await` points are modelled by passing the awaited outcome as a value:
  a `fetch` outcome is `Except String HttpResponse` (network failure message
  or response); `response.json()` is `Except String (Option String)`
  (parse failure message, or the optional `text` field of the body).
* Timer callbacks (`setInterval`) are modelled as explicit step functions
  applied once per tick; the event loop is single-threaded, so a trace is a
  sequence of such steps. `MediaRecorder.stop()` synchronously flips the
  recorder to 'inactive' and QUEUES the final `dataavailable` and `stop`
  events: a stopping operation therefore returns its post-state together
  with the list of queued `RecEvent`s, which `runRecEvents` delivers after
  the synchronous function has returned.
-/

namespace WhisperWeb

/-! ### Decimal rendering of numbers (JS number-to-string) -/

/-- Decimal rendering of a natural number, most significant digit first
(the JS `toString` / template-literal rendering of a nonnegative integer). -/
def natToDec (n : Nat) : String :=
  if _h : n < 10 then String.mk [Char.ofNat (48 + n)]
  else natToDec (n / 10) ++ String.mk [Char.ofNat (48 + n % 10)]

/-- JS `parseFloat(q.toFixed(2))` rendered back to a string, for a
nonnegative rational `q`: round to the nearest hundredth, then print the
integer part and the (trailing-zero-stripped) fractional part. -/
def renderFixed2 (q : ℚ) : String :=
  let c : Nat := (round (q * 100)).toNat
  let ip := c / 100
  let fp := c % 100
  if fp = 0 then natToDec ip
  else if fp % 10 = 0 then natToDec ip ++ "." ++ natToDec (fp / 10)
  else if fp < 10 then natToDec ip ++ ".0" ++ natToDec fp
  else natToDec ip ++ "." ++ natToDec fp

/-- The unit-label table of `formatFileSize` (script.js line 112). -/
def sizes : List String := ["Bytes", "KB", "MB", "GB"]

/-- Embedding of `formatFileSize` (script.js lines 109–115).
`Math.floor(Math.log(bytes) / Math.log(1024))` is modelled by its exact
value `Nat.log 1024 bytes`; `sizes[i]` past the end of the array is the JS
value `undefined`, which string concatenation renders as `"undefined"`,
modelled by `List.getD` with that default. -/
def formatFileSize (bytes : Nat) : String :=
  if bytes = 0 then "0 Bytes"
  else
    renderFixed2 ((bytes : ℚ) / 1024 ^ Nat.log 1024 bytes) ++ " " ++
      sizes.getD (Nat.log 1024 bytes) "undefined"

/-! ### Transcription job controller (script.js lines 117–201) -/

/-- The configured service base address (script.js line 2). -/
def API_BASE_URL : String := "/api"

/-- An entry of the upload queue (`uploadedFiles`): a platform file with a
name and a byte size. -/
structure AudioFile where
  name : String
  size : Nat
deriving DecidableEq

/-- A response to the `POST /api/inference` fetch, as observed by
`transcribeFile`: HTTP status information, plus the outcome of
`response.json()` — a parse-failure message, or the optional `text` field of
the parsed body. -/
structure HttpResponse where
  ok : Bool
  status : Nat
  statusText : String
  json : Except String (Option String)

/-- Outcome of `await fetch(...)`: a network-level failure message, or a
response. -/
def FetchOutcome := Except String HttpResponse

/-- The shared mutable UI state the script reads and writes: the upload
queue, the `currentTranscription` global, the result area's text and error
class, and the visibility/width of the progress and result sections. -/
structure AppState where
  uploadedFiles : List AudioFile
  currentTranscription : String
  displayedText : String
  displayedIsError : Bool
  resultVisible : Bool
  progressVisible : Bool
  progressWidth : ℚ
deriving DecidableEq

/-- `showResult(text, isError)` (lines 192–197): records the text in
`currentTranscription`, writes it to the result area with or without the
error class, and shows the result section. -/
def showResult (s : AppState) (text : String) (isError : Bool) : AppState :=
  { s with currentTranscription := text, displayedText := text,
           displayedIsError := isError, resultVisible := true }

/-- `hideResult()` (lines 199–201). -/
def hideResult (s : AppState) : AppState :=
  { s with resultVisible := false }

/-- `setProgress(percentage)` (lines 173–175): writes the progress bar
width. -/
def setProgress (s : AppState) (p : ℚ) : AppState :=
  { s with progressWidth := p }

/-- `showProgress()` (lines 163–167): shows the progress section and resets
the bar to 0. -/
def showProgress (s : AppState) : AppState :=
  setProgress { s with progressVisible := true } 0

/-- `hideProgress()` (lines 169–171). -/
def hideProgress (s : AppState) : AppState :=
  { s with progressVisible := false }

/-- The message of the error thrown on a non-success status (line 143):
`Server error: ${response.status} ${response.statusText}`. -/
def serverErrorMessage (r : HttpResponse) : String :=
  "Server error: " ++ natToDec r.status ++ " " ++ r.statusText

/-- The error text displayed by the catch block (line 159). -/
def errorDisplayText (msg : String) : String :=
  "Error: " ++ msg ++ "\n\nMake sure the Whisper server is running on " ++ API_BASE_URL

/-- JS `a || b` applied to the optional `text` field (line 153): both a
missing field (`undefined`) and an empty string are falsy. -/
def jsOrString : Option String → String → String
  | none, d => d
  | some s, d => if s = "" then d else s

/-- The multipart body built by `transcribeFile` (lines 124–131), as ordered
(field, value) pairs; the `file` part is identified by the file's name. The
`language` field is appended exactly when the selection differs from the
`"auto"` sentinel. -/
def buildFormData (file : AudioFile) (selectedLanguage : String) :
    List (String × String) :=
  [("file", file.name), ("response_format", "json")] ++
    (if selectedLanguage ≠ "auto" then [("language", selectedLanguage)] else [])

/-- The pre-fetch prefix of a submission once the indexed file exists
(lines 121–122): show the progress section, hide the previous result. -/
def startJob (s : AppState) : AppState :=
  hideResult (showProgress s)

/-- Resolution of one in-flight request against the shared UI state: the
tail of `transcribeFile` (lines 137–160). A network failure or a thrown
server/parse error lands in the catch block; on success the progress is
forced to 100 and, after the 500 ms timeout (which only sequences
`hideProgress` before `showResult`), the transcript — or the placeholder if
the `text` field is missing — is shown as a non-error result. Nothing on
any path touches the estimator interval. -/
def resolveJob (s : AppState) (fetched : FetchOutcome) : AppState :=
  match fetched with
  | .error msg => showResult (hideProgress s) (errorDisplayText msg) true
  | .ok r =>
    if r.ok then
      match r.json with
      | .error msg => showResult (hideProgress s) (errorDisplayText msg) true
      | .ok text? =>
        showResult (hideProgress (setProgress s 100))
          (jsOrString text? "No transcription available") false
    else showResult (hideProgress s) (errorDisplayText (serverErrorMessage r)) true

/-- `transcribeFile(fileIndex)` (lines 117–161): looks up the file at the
index; if there is none the function returns before touching any state and
before building a request. Otherwise it shows progress, hides the previous
result, builds the multipart body, and — once the fetch outcome is known —
resolves. Returns the new state together with the request body sent, if
any. -/
def transcribeFile (s : AppState) (fileIndex : Nat) (selectedLanguage : String)
    (fetched : FetchOutcome) : AppState × Option (List (String × String)) :=
  match s.uploadedFiles.get? fileIndex with
  | none => (s, none)
  | some file =>
    (resolveJob (startJob s) fetched, some (buildFormData file selectedLanguage))

/-! ### Progress estimator (`animateProgress`, lines 177–190) -/

/-- The closure state of the `animateProgress` interval: the local
`progress` accumulator and whether `clearInterval` has run on the handle. -/
structure Estimator where
  progress : ℚ
  cleared : Bool
deriving DecidableEq

/-- `animateProgress()` initial closure state: `progress = 0`, interval
armed. -/
def animateProgress : Estimator :=
  { progress := 0, cleared := false }

/-- One interval tick with pseudo-random increment `r` (`Math.random() * 15`,
drawn from [0, 15)): add the increment; past 90 the value is capped at 90
and the interval clears itself; then `setProgress` writes the shared width.
A cleared interval no longer fires. -/
def tickStep (s : AppState) (e : Estimator) (r : ℚ) : AppState × Estimator :=
  if e.cleared then (s, e)
  else
    let p := e.progress + r
    if p > 90 then (setProgress s 90, { progress := 90, cleared := true })
    else (setProgress s p, { progress := p, cleared := false })

/-- A sequence of estimator ticks applied to the shared state. -/
def runTicks (s : AppState) (e : Estimator) : List ℚ → AppState × Estimator
  | [] => (s, e)
  | r :: rs =>
    let se := tickStep s e r
    runTicks se.1 se.2 rs

/-- Resolution of the job together with the estimator handle: the catch and
success paths of `transcribeFile` contain no `clearInterval`, so the
estimator closure is untouched. -/
def resolveJobFull (s : AppState × Estimator) (fetched : FetchOutcome) :
    AppState × Estimator :=
  (resolveJob s.1 fetched, s.2)

/-! ### Recording session (script.js lines 286–408)

The recording globals and the relevant DOM state, as one record. Chunks are
modelled by their byte sizes. `start()` is called without a timeslice
(line 315), so the platform delivers the whole recording as one final
`dataavailable` chunk in a task that `stop()` queues, followed by the `stop`
event whose handler (lines 299–313) reveals the play/use controls and
releases the capture device (`stream.getTracks().forEach(track =>
track.stop())`, line 312) — both tasks run only after the synchronous
function that called `stop()` has returned. `deviceHeld` /
`releasesOfCurrent` track the stream of the current recorder since its
acquisition; a still-held stream abandoned by overwriting `mediaRecorder`
is counted in `leakedDevices`. -/

structure RecordingSession where
  /-- `mediaRecorder !== null` -/
  hasRecorder : Bool
  /-- `mediaRecorder.state !== 'inactive'` -/
  recorderActive : Bool
  /-- `recordedChunks` -/
  recordedChunks : List Nat
  /-- `recordingTimer !== null` -/
  timerActive : Bool
  /-- `recordingStartTime` -/
  recStartTime : Option Nat
  /-- the current recorder's stream still holds the microphone -/
  deviceHeld : Bool
  /-- times the current recorder's stream was released since acquisition -/
  releasesOfCurrent : Nat
  /-- streams abandoned while still holding the device -/
  leakedDevices : Nat
  /-- the play/use controls are visible (the Stopped-for-review UI) -/
  playUseVisible : Bool
deriving DecidableEq

/-- The session states of the spec's finite state machine, read off the
observable state: an active recorder means Recording; an inactive one with
the review controls shown means Stopped; otherwise Idle. -/
inductive RecState where
  | idle
  | recording
  | stopped
deriving DecidableEq

def stateOf (s : RecordingSession) : RecState :=
  if s.recorderActive then .recording
  else if s.playUseVisible then .stopped
  else .idle

/-- The recorder's `onstop` handler (lines 299–313): builds the review blob,
reveals the play/use controls, and stops every track of the captured stream,
releasing the microphone. -/
def recorderOnStop (s : RecordingSession) : RecordingSession :=
  { s with playUseVisible := true, deviceHeld := false,
           releasesOfCurrent := s.releasesOfCurrent + 1 }

/-- A `dataavailable` event (lines 293–297): the handler checks only
`event.data.size > 0` before appending to `recordedChunks` — it has no
guard on the recorder's state, so the final chunk queued by `stop()` is
appended even after the caller of `stop()` has reset the buffer. -/
def dataAvailable (s : RecordingSession) (sz : Nat) : RecordingSession :=
  if sz > 0 then { s with recordedChunks := s.recordedChunks ++ [sz] }
  else s

/-- An event queued by `MediaRecorder.stop()`, delivered by the event loop
after the synchronous code that called `stop()` has finished: the final
`dataavailable` carrying the entire recording (no timeslice was passed to
`start()`), then the `stop` event. -/
inductive RecEvent where
  | dataavailable (sz : Nat)
  | stopped
deriving DecidableEq

/-- Delivery of one queued recorder event. -/
def recEventStep (s : RecordingSession) : RecEvent → RecordingSession
  | .dataavailable sz => dataAvailable s sz
  | .stopped => recorderOnStop s

/-- Draining the queued recorder events in order. -/
def runRecEvents (s : RecordingSession) : List RecEvent → RecordingSession
  | [] => s
  | e :: es => runRecEvents (recEventStep s e) es

/-- `MediaRecorder.stop()` on an active recorder: synchronously the state
flips to 'inactive', and the final `dataavailable` (with the recording's
`finalSize` bytes, platform-determined) and the `stop` event are queued;
nothing else happens inside the call. On an inactive or absent recorder the
guard `mediaRecorder && mediaRecorder.state !== 'inactive'` skips the call
and nothing is queued. -/
def recorderStop (s : RecordingSession) (finalSize : Nat) :
    RecordingSession × List RecEvent :=
  if s.hasRecorder ∧ s.recorderActive then
    ({ s with recorderActive := false }, [.dataavailable finalSize, .stopped])
  else (s, [])

/-- `startRecording()` (lines 286–330). `granted` is the outcome of the
`getUserMedia` permission prompt; on denial the catch block only surfaces a
warning and the session is unchanged. On success — with no guard against an
already-active recorder — the chunk buffer is reset, a fresh recorder on a
fresh stream replaces the current one (leaking the old stream if it still
held the device, since nothing ever stops it), and the timer is started. -/
def startRecording (s : RecordingSession) (granted : Bool) (now : Nat) :
    RecordingSession :=
  if granted then
    { hasRecorder := true
      recorderActive := true
      recordedChunks := []
      timerActive := true
      recStartTime := some now
      deviceHeld := true
      releasesOfCurrent := 0
      leakedDevices := s.leakedDevices + (if s.deviceHeld then 1 else 0)
      playUseVisible := s.playUseVisible }
  else s

/-- `stopRecording()` (lines 332–347): calls `stop()` on an active recorder
(queueing the final chunk and the `stop` event for later delivery) and
clears the timer; the chunk buffer is kept for review. Returns the state at
function return together with the queued events. -/
def stopRecording (s : RecordingSession) (finalSize : Nat) :
    RecordingSession × List RecEvent :=
  let se := recorderStop s finalSize
  ({ se.1 with timerActive := false }, se.2)

/-- `cancelRecording()` (lines 383–408): calls `stop()` on an active
recorder (queueing the final chunk and the `stop` event for later
delivery), then synchronously clears the timer, hides the review controls,
and clears the chunk buffer and start time. The queued events run only
after this function returns: the final chunk lands in the just-cleared
buffer and `onstop` re-shows the review controls and releases the device.
Returns the state at function return together with the queued events. -/
def cancelRecording (s : RecordingSession) (finalSize : Nat) :
    RecordingSession × List RecEvent :=
  let se := recorderStop s finalSize
  ({ se.1 with timerActive := false, playUseVisible := false,
               recordedChunks := [], recStartTime := none }, se.2)

/-- The bookkeeping invariant of a reachable session: an active recorder
object exists; while Recording the current stream holds the device and has
never been released; once Stopped it has been released exactly once. -/
def deviceInv (s : RecordingSession) : Prop :=
  (s.recorderActive = true → s.hasRecorder = true) ∧
  (stateOf s = .recording → s.deviceHeld = true ∧ s.releasesOfCurrent = 0) ∧
  (stateOf s = .stopped → s.deviceHeld = false ∧ s.releasesOfCurrent = 1)

instance (s : RecordingSession) : Decidable (deviceInv s) := by
  unfold deviceInv
  infer_instance

/-! ### Concrete fixtures used by witnesses and counterexamples -/

/-- The page-load UI state: empty queue, empty result area, everything
hidden. -/
def initialState : AppState :=
  { uploadedFiles := [], currentTranscription := "", displayedText := "",
    displayedIsError := false, resultVisible := false,
    progressVisible := false, progressWidth := 0 }

def sampleFile : AudioFile :=
  { name := "recording-1.webm", size := 2048000 }

/-- A state with one file surfaced in the upload queue. -/
def queueState : AppState :=
  { initialState with uploadedFiles := [sampleFile] }

def respOkA : HttpResponse :=
  { ok := true, status := 200, statusText := "OK", json := .ok (some "result A") }

def respOkB : HttpResponse :=
  { ok := true, status := 200, statusText := "OK", json := .ok (some "result B") }

def resp500 : HttpResponse :=
  { ok := false, status := 500, statusText := "Internal Server Error",
    json := .error "unused" }

def respNoText : HttpResponse :=
  { ok := true, status := 200, statusText := "OK", json := .ok none }

/-- A session three ticks into a recording, holding the microphone. -/
def recordingFixture : RecordingSession :=
  { hasRecorder := true, recorderActive := true, recordedChunks := [1200, 800],
    timerActive := true, recStartTime := some 5, deviceHeld := true,
    releasesOfCurrent := 0, leakedDevices := 0, playUseVisible := false }

/-- The page-load recording state: no recorder, nothing held. -/
def initialSession : RecordingSession :=
  { hasRecorder := false, recorderActive := false, recordedChunks := [],
    timerActive := false, recStartTime := none, deviceHeld := false,
    releasesOfCurrent := 0, leakedDevices := 0, playUseVisible := false }

/-- A job mid-flight: submitted, one estimator tick of 50 taken. -/
def midJob : AppState × Estimator :=
  runTicks (startJob initialState) animateProgress [50]

/-- The mid-flight job after its response resolves successfully. -/
def afterResolve : AppState × Estimator :=
  resolveJobFull midJob (.ok respOkA)

/-- A job with one estimator tick of 10 taken. -/
def midJobErr : AppState × Estimator :=
  runTicks (startJob initialState) animateProgress [10]

/-! ### Supporting lemmas -/

theorem natToDec_length (n : Nat) : 1 ≤ (natToDec n).length := by
  induction n using natToDec.induct with
  | case1 n h => simp [natToDec, h, String.length]
  | case2 n h ih =>
    rw [natToDec]
    simp only [h, dite_false]
    rw [String.length_append]
    omega

theorem natToDec_eq_zero_iff (n : Nat) : natToDec n = "0" ↔ n = 0 := by
  constructor
  · intro hz
    by_cases h : n < 10
    · rw [natToDec] at hz
      simp only [h, dite_true] at hz
      have hc : Char.ofNat (48 + n) = '0' := by
        have := congrArg String.data hz
        simpa using this
      interval_cases n <;> first | rfl | exact absurd hc (by decide)
    · exfalso
      rw [natToDec] at hz
      simp only [h, dite_false] at hz
      have h1 := congrArg String.length hz
      rw [String.length_append] at h1
      have h2 := natToDec_length (n / 10)
      have h3 : (String.mk [Char.ofNat (48 + n % 10)]).length = 1 := rfl
      have h4 : ("0" : String).length = 1 := rfl
      omega
  · rintro rfl
    rw [natToDec]
    norm_num

/-- On a whole number the two-decimal rendering is just the decimal integer. -/
theorem renderFixed2_natCast (b : Nat) : renderFixed2 (b : ℚ) = natToDec b := by
  have hc : (round ((b : ℚ) * 100)).toNat = b * 100 := by
    have : ((b : ℚ) * 100) = ((b * 100 : Nat) : ℚ) := by push_cast; ring
    rw [this, round_natCast, Int.toNat_natCast]
  simp only [renderFixed2, hc]
  have hip : b * 100 / 100 = b := by omega
  have hfp : b * 100 % 100 = 0 := by omega
  simp [hip, hfp]

theorem string_eq_of_data (a b : String) (h : a.data = b.data) : a = b := by
  cases a; cases b; exact congrArg String.mk h

/-- A string of the shape `r ++ " " ++ st` whose unit part ends in 'B' or 'd'
is never the string "0 Bytes" (which ends in 's'). -/
theorem append_unit_ne_zeroBytes (r st : String)
    (hst : st.data.getLast? = some 'B' ∨ st.data.getLast? = some 'd') :
    r ++ " " ++ st ≠ "0 Bytes" := by
  intro he
  have hd := congrArg String.data he
  rw [String.data_append, String.data_append, List.append_assoc] at hd
  have hstne : st.data ≠ [] := by
    intro hnil
    rcases hst with h | h <;> (rw [hnil] at h; simp at h)
  have hne : (" " : String).data ++ st.data ≠ [] := by
    intro hnil
    have := congrArg List.length hnil
    rw [List.length_append] at this
    simp at this
  have hlast := List.getLast?_append_of_ne_nil (r.data) hne
  rw [hd] at hlast
  have hlast2 := List.getLast?_append_of_ne_nil ((" " : String).data) hstne
  rw [hlast2] at hlast
  have hzb : ("0 Bytes" : String).data.getLast? = some 's' := by decide
  rw [hzb] at hlast
  rcases hst with h | h <;> (rw [h] at hlast; simp at hlast)

theorem formatFileSize_ne_zeroBytes (b : Nat) (hb : b ≠ 0) :
    formatFileSize b ≠ "0 Bytes" := by
  rw [formatFileSize, if_neg hb]
  by_cases h0 : Nat.log 1024 b = 0
  · rw [h0]
    have hq : ((b : ℚ) / 1024 ^ (0 : ℕ)) = ((b : Nat) : ℚ) := by norm_num
    rw [hq, renderFixed2_natCast]
    have hB : sizes.getD 0 "undefined" = "Bytes" := rfl
    rw [hB]
    intro he
    have hd := congrArg String.data he
    rw [String.data_append, String.data_append, List.append_assoc] at hd
    have h1 : (" " : String).data ++ ("Bytes" : String).data = (" Bytes" : String).data := by
      decide
    rw [h1] at hd
    have h0B : ("0 Bytes" : String).data = ("0" : String).data ++ (" Bytes" : String).data := by
      decide
    rw [h0B] at hd
    have h2 := List.append_cancel_right hd
    have h3 : natToDec b = "0" := string_eq_of_data _ _ h2
    exact hb ((natToDec_eq_zero_iff b).mp h3)
  · apply append_unit_ne_zeroBytes
    by_cases h3 : Nat.log 1024 b ≤ 3
    · have hc : Nat.log 1024 b = 1 ∨ Nat.log 1024 b = 2 ∨ Nat.log 1024 b = 3 := by omega
      rcases hc with hc | hc | hc <;> rw [hc] <;> (left; decide)
    · right
      have h4 : ∃ n, Nat.log 1024 b = n + 4 := ⟨Nat.log 1024 b - 4, by omega⟩
      obtain ⟨n, hn⟩ := h4
      rw [hn]
      have hdef : sizes.getD (n + 4) "undefined" = "undefined" := by
        apply List.getD_eq_default
        simp [sizes]
      rw [hdef]
      decide

/-- One estimator tick keeps both the written width and the accumulator at
most 90. -/
theorem tickStep_le (s : AppState) (e : Estimator) (r : ℚ)
    (hs : s.progressWidth ≤ 90) (he : e.progress ≤ 90) :
    (tickStep s e r).1.progressWidth ≤ 90 ∧ (tickStep s e r).2.progress ≤ 90 := by
  rw [tickStep]
  by_cases hc : e.cleared
  · simp [hc, hs, he]
  · simp only [hc, if_false, Bool.false_eq_true]
    by_cases hp : e.progress + r > 90
    · simp [hp, setProgress]
    · have hle : e.progress + r ≤ 90 := not_lt.mp hp
      simp [hp, setProgress, hle]

/-- Any tick sequence keeps the shared progress width at most 90. -/
theorem runTicks_le (rs : List ℚ) (s : AppState) (e : Estimator)
    (hs : s.progressWidth ≤ 90) (he : e.progress ≤ 90) :
    (runTicks s e rs).1.progressWidth ≤ 90 ∧ (runTicks s e rs).2.progress ≤ 90 := by
  induction rs generalizing s e with
  | nil => exact ⟨hs, he⟩
  | cons r rs ih =>
    rw [runTicks]
    exact ih _ _ (tickStep_le s e r hs he).1 (tickStep_le s e r hs he).2

/-- `deviceInv` holds for the page-load session. -/
theorem deviceInv_initialSession : deviceInv initialSession := by decide

/-- `deviceInv` is preserved by `startRecording`. -/
theorem deviceInv_startRecording (s : RecordingSession) (granted : Bool) (now : Nat)
    (h : deviceInv s) : deviceInv (startRecording s granted now) := by
  by_cases hg : granted
  · simp [startRecording, hg, deviceInv, stateOf]
  · simpa [startRecording, hg] using h

/-- Once its queued events drain, `stopRecording` preserves `deviceInv`:
stopping from Recording delivers the final chunk and then releases the
device exactly once on the way to the observable Stopped state. -/
theorem deviceInv_stopRecording_drained (s : RecordingSession) (finalSize : Nat)
    (h : deviceInv s) :
    deviceInv (runRecEvents (stopRecording s finalSize).1
      (stopRecording s finalSize).2) := by
  obtain ⟨hwf, hrec, hstop⟩ := h
  by_cases hact : s.hasRecorder ∧ s.recorderActive
  · obtain ⟨hheld, hrel⟩ := hrec (by simp [stateOf, hact.2])
    by_cases hsz : finalSize > 0 <;>
      simp [stopRecording, recorderStop, hact, runRecEvents, recEventStep,
        dataAvailable, hsz, recorderOnStop, deviceInv, stateOf, hrel]
  · have hsteq : runRecEvents (stopRecording s finalSize).1
        (stopRecording s finalSize).2 = { s with timerActive := false } := by
      simp [stopRecording, recorderStop, hact, runRecEvents]
    rw [hsteq]
    exact ⟨hwf, hrec, hstop⟩

/-- Once its queued events drain, `cancelRecording` preserves `deviceInv`:
cancelling from Recording ends in the observable Stopped state with the
device released exactly once; from elsewhere nothing was queued and the
session is Idle, where the invariant is vacuous. -/
theorem deviceInv_cancelRecording_drained (s : RecordingSession) (finalSize : Nat)
    (h : deviceInv s) :
    deviceInv (runRecEvents (cancelRecording s finalSize).1
      (cancelRecording s finalSize).2) := by
  obtain ⟨hwf, hrec, hstop⟩ := h
  by_cases hact : s.hasRecorder ∧ s.recorderActive
  · obtain ⟨hheld, hrel⟩ := hrec (by simp [stateOf, hact.2])
    by_cases hsz : finalSize > 0 <;>
      simp [cancelRecording, recorderStop, hact, runRecEvents, recEventStep,
        dataAvailable, hsz, recorderOnStop, deviceInv, stateOf, hrel]
  · have hra : s.recorderActive = false := by
      by_cases hx : s.recorderActive
      · exact absurd ⟨hwf hx, hx⟩ hact
      · simpa using hx
    have hceq : runRecEvents (cancelRecording s finalSize).1
        (cancelRecording s finalSize).2
        = { s with timerActive := false, playUseVisible := false,
                   recordedChunks := [], recStartTime := none } := by
      simp [cancelRecording, recorderStop, hact, runRecEvents]
    rw [hceq]
    refine ⟨fun hx => hwf hx, ?_, ?_⟩
    · intro hx
      exact absurd hx (by simp [stateOf, hra])
    · intro hx
      exact absurd hx (by simp [stateOf, hra])

/-- `deviceInv` is preserved by chunk delivery (it touches only the
buffer). -/
theorem deviceInv_dataAvailable (s : RecordingSession) (sz : Nat)
    (h : deviceInv s) : deviceInv (dataAvailable s sz) := by
  by_cases hc : sz > 0
  · simpa [dataAvailable, hc, deviceInv, stateOf] using h
  · simpa [dataAvailable, hc] using h

/-! ### The claims -/

/-- C1 counterexample: jobs A then B are submitted, B's response resolves
with "result B", then stale A's resolves with "result A": the presented
result is A's, not B's — the stale job overwrites the newer job's result. -/
theorem staleOverwrite_counterexample :
    (resolveJob (startJob (startJob queueState)) (.ok respOkB)).displayedText
      = "result B" ∧
    (resolveJob (resolveJob (startJob (startJob queueState)) (.ok respOkB))
        (.ok respOkA)).displayedText = "result A" ∧
    ("result A" : String) ≠ "result B" := by
  refine ⟨by decide, by decide, by decide⟩

/-- C1 (amended): the code resolves every job by writing the shared result
unconditionally, so the presented result is that of the job that resolves
last — a stale job resolving after a newer one overwrites the newer job's
result (the legacy last-resolution-wins behavior). -/
theorem lastResolutionWins (s : AppState) (fB fA : FetchOutcome) :
    (resolveJob (resolveJob s fB) fA).displayedText
      = (resolveJob s fA).displayedText ∧
    (resolveJob (resolveJob s fB) fA).displayedIsError
      = (resolveJob s fA).displayedIsError ∧
    (resolveJob (resolveJob s fB) fA).currentTranscription
      = (resolveJob s fA).currentTranscription := by
  rcases fA with m | r
  · simp [resolveJob, showResult, hideProgress, setProgress]
  · by_cases h : r.ok <;> rcases hj : r.json with m | t? <;>
      simp [resolveJob, h, hj, showResult, hideProgress, setProgress]

/-- C2 (amended): for nonzero `b` the formatter picks the unit index
`u = Nat.log 1024 b`, for which the displayed value `b / 1024^u` lies in
`[1, 1024)`; the label is the defined unit from the table as long as
`b < 1024^4`, but for `b ≥ 1024^4` the table is over-indexed and the label
degenerates to "undefined" instead of being capped at "GB". "0 Bytes" is
returned exactly for `b = 0`. -/
theorem formatFileSize_amended (b : Nat) (hb : b ≠ 0) :
    formatFileSize 0 = "0 Bytes" ∧
    formatFileSize b ≠ "0 Bytes" ∧
    (1 ≤ (b : ℚ) / 1024 ^ Nat.log 1024 b ∧ (b : ℚ) / 1024 ^ Nat.log 1024 b < 1024) ∧
    formatFileSize b =
      renderFixed2 ((b : ℚ) / 1024 ^ Nat.log 1024 b) ++ " " ++
        sizes.getD (Nat.log 1024 b) "undefined" ∧
    (b < 1024 ^ 4 → sizes.getD (Nat.log 1024 b) "undefined" ∈ sizes) ∧
    (1024 ^ 4 ≤ b → sizes.getD (Nat.log 1024 b) "undefined" = "undefined") := by
  have hl : 1024 ^ Nat.log 1024 b ≤ b := Nat.pow_log_le_self 1024 hb
  have hr : b < 1024 ^ (Nat.log 1024 b + 1) := Nat.lt_pow_succ_log_self (by norm_num) b
  have hpow : (0 : ℚ) < 1024 ^ Nat.log 1024 b := by positivity
  refine ⟨rfl, formatFileSize_ne_zeroBytes b hb, ⟨?_, ?_⟩, ?_, ?_, ?_⟩
  · rw [one_le_div hpow]
    exact_mod_cast hl
  · rw [div_lt_iff₀ hpow]
    have h2 : (b : ℚ) < 1024 ^ (Nat.log 1024 b + 1) := by exact_mod_cast hr
    calc (b : ℚ) < 1024 ^ (Nat.log 1024 b + 1) := h2
      _ = 1024 * 1024 ^ Nat.log 1024 b := by ring
  · rw [formatFileSize, if_neg hb]
  · intro hlt
    have hu : Nat.log 1024 b ≤ 3 := by
      by_contra hgt
      have h4 : 4 ≤ Nat.log 1024 b := by omega
      have : 1024 ^ 4 ≤ 1024 ^ Nat.log 1024 b := Nat.pow_le_pow_right (by norm_num) h4
      omega
    interval_cases h : Nat.log 1024 b <;> decide
  · intro hge
    have hu : 4 ≤ Nat.log 1024 b := by
      by_contra hgt
      have h4 : Nat.log 1024 b + 1 ≤ 4 := by omega
      have : 1024 ^ (Nat.log 1024 b + 1) ≤ 1024 ^ 4 := Nat.pow_le_pow_right (by norm_num) h4
      omega
    apply List.getD_eq_default
    simp only [sizes, List.length_cons, List.length_nil]
    omega

/-- C2 counterexample: at `b = 1024^4` the claim requires the largest defined
unit "GB" (value 1024, display "1024 GB"); the code instead over-indexes the
unit table and produces "1 undefined". -/
theorem formatFileSize_pastGB_counterexample :
    formatFileSize (1024 ^ 4) = "1 undefined" ∧
    formatFileSize (1024 ^ 4) ≠ "1024 GB" := by
  have hu : Nat.log 1024 (1024 ^ 4) = 4 :=
    Nat.log_eq_of_pow_le_of_lt_pow (by norm_num) (by norm_num)
  have h1 : formatFileSize (1024 ^ 4) = "1 undefined" := by
    rw [formatFileSize, if_neg (by norm_num), hu]
    have hq : (((1024 ^ 4 : Nat) : ℚ) / 1024 ^ 4) = ((1 : Nat) : ℚ) := by norm_num
    rw [hq, renderFixed2_natCast]
    have hn : natToDec 1 = "1" := by simp [natToDec]
    rw [hn]
    decide
  exact ⟨h1, by rw [h1]; decide⟩

/-- C2 witness: the 2,048,000-byte file of end-to-end scenario 1 is shown as
"1.95 MB", with the defined unit "MB" selected. -/
theorem formatFileSize_amended_witness :
    (2048000 : Nat) ≠ 0 ∧ (2048000 : Nat) < 1024 ^ 4 ∧
    sizes.getD (Nat.log 1024 2048000) "undefined" ∈ sizes ∧
    formatFileSize 2048000 = "1.95 MB" := by
  have hu : Nat.log 1024 2048000 = 2 :=
    Nat.log_eq_of_pow_le_of_lt_pow (by norm_num) (by norm_num)
  refine ⟨by norm_num, by norm_num,
    (formatFileSize_amended 2048000 (by norm_num)).2.2.2.2.1 (by norm_num), ?_⟩
  rw [formatFileSize, if_neg (by norm_num), hu]
  have hq : (((2048000 : Nat) : ℚ) / 1024 ^ 2) = 1.953125 := by norm_num
  rw [hq]
  have hren : renderFixed2 1.953125 = "1.95" := by
    simp only [renderFixed2]
    have hc : (round ((1.953125 : ℚ) * 100)).toNat = 195 := by
      norm_num [round_eq]
      decide
    rw [hc]
    norm_num
    have h1 : natToDec 1 = "1" := by simp [natToDec]
    have h95 : natToDec 95 = "95" := by simp [natToDec]
    rw [h1, h95]
    decide
  rw [hren]
  decide

/-- C3 counterexample: cancelling the mid-recording fixture completes with
the device still held and released zero times (the release is in a queued
task); the `dataavailable` and `stop` tasks that `stop()` queued then
refill the just-cleared buffer with the 2000-byte final chunk and re-show
the review controls, so the settled session is Stopped with a nonempty
buffer and the release happens only then — the claimed conjunction (empty
buffer ∧ Idle ∧ released exactly once) holds at no point. -/
theorem cancelRecording_async_counterexample :
    (cancelRecording recordingFixture 2000).1.recordedChunks = [] ∧
    (cancelRecording recordingFixture 2000).1.releasesOfCurrent = 0 ∧
    (cancelRecording recordingFixture 2000).1.deviceHeld = true ∧
    (cancelRecording recordingFixture 2000).2
      = [.dataavailable 2000, .stopped] ∧
    (runRecEvents (cancelRecording recordingFixture 2000).1
        (cancelRecording recordingFixture 2000).2).recordedChunks = [2000] ∧
    stateOf (runRecEvents (cancelRecording recordingFixture 2000).1
        (cancelRecording recordingFixture 2000).2) = .stopped ∧
    (runRecEvents (cancelRecording recordingFixture 2000).1
        (cancelRecording recordingFixture 2000).2).releasesOfCurrent = 1 := by
  refine ⟨by decide, by decide, by decide, by decide, by decide, by decide, by decide⟩

/-- C3 (amended): cancelling from Idle or Stopped queues nothing, empties
the buffer and lands in Idle, with no further release (a Stopped session's
device was already released exactly once by its stop). Cancelling from
Recording returns with the buffer cleared and the review UI hidden, but the
device still held and not yet released; the `dataavailable` and `stop`
events queued by `stop()` then repopulate the buffer with the final chunk
(when it is nonempty), re-show the review controls — leaving the session
observably Stopped, not Idle — and only then release the device, exactly
once. -/
theorem cancelRecording_amended (s : RecordingSession) (finalSize : Nat)
    (h : deviceInv s) :
    (cancelRecording s finalSize).1.recordedChunks = [] ∧
    stateOf (cancelRecording s finalSize).1 = .idle ∧
    (stateOf s ≠ .recording →
      (cancelRecording s finalSize).2 = [] ∧
      (cancelRecording s finalSize).1.deviceHeld = s.deviceHeld ∧
      (cancelRecording s finalSize).1.releasesOfCurrent = s.releasesOfCurrent ∧
      (stateOf s = .stopped →
        (cancelRecording s finalSize).1.releasesOfCurrent = 1 ∧
        (cancelRecording s finalSize).1.deviceHeld = false)) ∧
    (stateOf s = .recording →
      (cancelRecording s finalSize).1.deviceHeld = true ∧
      (cancelRecording s finalSize).1.releasesOfCurrent = 0 ∧
      (cancelRecording s finalSize).2 = [.dataavailable finalSize, .stopped] ∧
      (runRecEvents (cancelRecording s finalSize).1
          (cancelRecording s finalSize).2).recordedChunks
        = (if finalSize > 0 then [finalSize] else []) ∧
      stateOf (runRecEvents (cancelRecording s finalSize).1
          (cancelRecording s finalSize).2) = .stopped ∧
      (runRecEvents (cancelRecording s finalSize).1
          (cancelRecording s finalSize).2).releasesOfCurrent = 1 ∧
      (runRecEvents (cancelRecording s finalSize).1
          (cancelRecording s finalSize).2).deviceHeld = false) := by
  obtain ⟨hwf, hrec, hstop⟩ := h
  by_cases hact : s.hasRecorder ∧ s.recorderActive
  · have hst : stateOf s = .recording := by simp [stateOf, hact.2]
    obtain ⟨hheld, hrel⟩ := hrec hst
    refine ⟨by simp [cancelRecording, recorderStop, hact],
      by simp [cancelRecording, recorderStop, hact, stateOf],
      fun hne => absurd hst hne, fun _ => ?_⟩
    by_cases hsz : finalSize > 0 <;>
      simp [cancelRecording, recorderStop, hact, runRecEvents, recEventStep,
        dataAvailable, hsz, recorderOnStop, stateOf, hheld, hrel]
  · have hra : s.recorderActive = false := by
      by_cases hx : s.recorderActive
      · exact absurd ⟨hwf hx, hx⟩ hact
      · simpa using hx
    have hnotrec : stateOf s ≠ .recording := by
      by_cases hpu : s.playUseVisible <;> simp [stateOf, hra, hpu]
    have hceq1 : (cancelRecording s finalSize).1
        = { s with timerActive := false, playUseVisible := false,
                   recordedChunks := [], recStartTime := none } := by
      simp [cancelRecording, recorderStop, hact]
    have hceq2 : (cancelRecording s finalSize).2 = [] := by
      simp [cancelRecording, recorderStop, hact]
    refine ⟨by rw [hceq1], by rw [hceq1]; simp [stateOf, hra],
      fun _ => ⟨hceq2, by rw [hceq1], by rw [hceq1], ?_⟩,
      fun hx => absurd hx hnotrec⟩
    intro hst
    obtain ⟨hheld, hrel⟩ := hstop hst
    rw [hceq1]
    exact ⟨hrel, hheld⟩

/-- C3 witness: the amended behavior at the concrete mid-recording session
with a 2000-byte recording — cleared buffer and Idle at function return
with the release still pending, and exactly one release after the queued
events run. -/
theorem cancelRecording_amended_witness :
    deviceInv recordingFixture ∧
    stateOf recordingFixture = .recording ∧
    (cancelRecording recordingFixture 2000).1.recordedChunks = [] ∧
    stateOf (cancelRecording recordingFixture 2000).1 = .idle ∧
    (cancelRecording recordingFixture 2000).1.releasesOfCurrent = 0 ∧
    (runRecEvents (cancelRecording recordingFixture 2000).1
        (cancelRecording recordingFixture 2000).2).releasesOfCurrent = 1 :=
  ⟨by decide, by decide,
    (cancelRecording_amended recordingFixture 2000 (by decide)).1,
    (cancelRecording_amended recordingFixture 2000 (by decide)).2.1,
    ((cancelRecording_amended recordingFixture 2000 (by decide)).2.2.2
      (by decide)).2.1,
    ((cancelRecording_amended recordingFixture 2000 (by decide)).2.2.2
      (by decide)).2.2.2.2.2.1⟩

/-- C4 counterexample: invoking `startRecording` while the fixture session
is Recording with a nonempty chunk buffer is not rejected: the call
succeeds, clears the buffer (altering it), and leaks the old device. -/
theorem startRecording_notRejected_counterexample :
    stateOf recordingFixture = .recording ∧
    recordingFixture.recordedChunks = [1200, 800] ∧
    (startRecording recordingFixture true 9).recordedChunks = [] ∧
    (startRecording recordingFixture true 9).recordedChunks
      ≠ recordingFixture.recordedChunks ∧
    stateOf (startRecording recordingFixture true 9) = .recording ∧
    (startRecording recordingFixture true 9).leakedDevices = 1 := by
  refine ⟨by decide, by decide, by decide, by decide, by decide, by decide⟩

/-- C4 (amended): a second invocation of `startRecording` while a session is
Recording is not rejected — when the permission resolves it clears the
captured-chunks buffer, replaces the recorder with a fresh session, and
leaks the previously held capture device, which is never released. -/
theorem startRecording_whileRecording_amended (s : RecordingSession) (now : Nat)
    (h : stateOf s = .recording) (hd : s.deviceHeld = true) :
    (startRecording s true now).recordedChunks = [] ∧
    stateOf (startRecording s true now) = .recording ∧
    (startRecording s true now).leakedDevices = s.leakedDevices + 1 ∧
    (startRecording s true now).releasesOfCurrent = 0 := by
  simp [startRecording, stateOf, hd]

/-- C4 witness: the amended behavior at the concrete mid-recording
session. -/
theorem startRecording_whileRecording_witness :
    stateOf recordingFixture = .recording ∧
    recordingFixture.deviceHeld = true ∧
    (startRecording recordingFixture true 9).recordedChunks = [] ∧
    (startRecording recordingFixture true 9).leakedDevices
      = recordingFixture.leakedDevices + 1 :=
  ⟨by decide, by decide,
    (startRecording_whileRecording_amended recordingFixture 9 (by decide) (by decide)).1,
    (startRecording_whileRecording_amended recordingFixture 9 (by decide) (by decide)).2.2.1⟩

/-- C5 counterexample: a job resolves successfully while the estimator is at
50 — progress is forced to 100 — yet the interval has not been cleared, and
its next tick (increment 5) overwrites the shared progress with 55. -/
theorem intervalSurvivesResolution_counterexample :
    afterResolve.1.progressWidth = 100 ∧
    afterResolve.2.cleared = false ∧
    (tickStep afterResolve.1 afterResolve.2 5).1.progressWidth = 55 ∧
    ((55 : ℚ) ≠ 100) := by
  have h2 : afterResolve.2 = { progress := 50, cleared := false } := by
    show (runTicks (startJob initialState) animateProgress [50]).2 = _
    norm_num [runTicks, tickStep, animateProgress]
  have h1 : afterResolve.1.progressWidth = 100 := by
    show (resolveJob midJob.1 (.ok respOkA)).progressWidth = 100
    simp [resolveJob, respOkA, showResult, hideProgress, setProgress]
  refine ⟨h1, by rw [h2], ?_, by norm_num⟩
  rw [h2, tickStep]
  norm_num [setProgress]

/-- C5 (amended): no resolution path (success, error, or a later job's
resolution) clears the estimator interval; the interval clears itself only
once a tick pushes its accumulated progress past 90, and until then every
tick that fires after the resolution still overwrites the shared progress
width. -/
theorem estimator_resolution_amended (s : AppState) (e : Estimator)
    (f : FetchOutcome) (r : ℚ) :
    (resolveJobFull (s, e) f).2 = e ∧
    ((tickStep (resolveJobFull (s, e) f).1 e r).2.cleared = true ↔
      (e.cleared = true ∨ e.progress + r > 90)) ∧
    (e.cleared = false → ¬ e.progress + r > 90 →
      (tickStep (resolveJobFull (s, e) f).1 e r).1.progressWidth
        = e.progress + r) := by
  refine ⟨rfl, ?_, ?_⟩
  · rw [tickStep]
    by_cases hc : e.cleared
    · simp [hc]
    · simp only [hc, Bool.false_eq_true, if_false]
      by_cases hp : e.progress + r > 90
      · simp [hp]
      · simp [hp, hc]
  · intro hc hp
    rw [tickStep]
    simp [hc, hp, setProgress]

/-- C5 witness: with the armed estimator at 0, a post-resolution tick of 7
writes 7 to the shared progress and the interval stays armed. -/
theorem estimator_resolution_amended_witness :
    animateProgress.cleared = false ∧
    ¬ animateProgress.progress + 7 > 90 ∧
    (tickStep (resolveJobFull (initialState, animateProgress) (.ok respOkA)).1
        animateProgress 7).1.progressWidth = animateProgress.progress + 7 :=
  ⟨rfl, by norm_num [animateProgress],
    (estimator_resolution_amended initialState animateProgress (.ok respOkA) 7).2.2
      rfl (by norm_num [animateProgress])⟩

/-- C6 (amended): the estimator starts at 0 and every tick keeps the shared
progress at most 90 while the response is pending; a resolution through the
success path forces the progress to exactly 100, but a resolution through
the catch path (non-success status) merely hides the progress section,
leaving the width wherever the ticks last put it — it is not set to 100. -/
theorem progress_invariant_amended (s : AppState) (rs : List ℚ) (r : HttpResponse) :
    (startJob s).progressWidth = 0 ∧
    animateProgress.progress = 0 ∧
    (runTicks (startJob s) animateProgress rs).1.progressWidth ≤ 90 ∧
    (r.ok = true → ∀ t?, r.json = .ok t? →
      (resolveJob (runTicks (startJob s) animateProgress rs).1 (.ok r)).progressWidth
        = 100) ∧
    (r.ok = false →
      (resolveJob (runTicks (startJob s) animateProgress rs).1 (.ok r)).progressWidth
        = (runTicks (startJob s) animateProgress rs).1.progressWidth) := by
  refine ⟨rfl, rfl, ?_, ?_, ?_⟩
  · exact (runTicks_le rs _ _ (by simp [startJob, hideResult, showProgress, setProgress])
      (by simp [animateProgress])).1
  · intro hok t? hj
    simp [resolveJob, hok, hj, showResult, hideProgress, setProgress]
  · intro hok
    simp [resolveJob, hok, showResult, hideProgress, setProgress]

/-- C6 counterexample: the estimator has ticked to 10 when the response
resolves with HTTP 500: the catch path leaves the progress at 10 — it is not
set to 100 at resolution. -/
theorem progressNot100OnError_counterexample :
    midJobErr.1.progressWidth = 10 ∧
    (resolveJob midJobErr.1 (.ok resp500)).progressWidth = 10 ∧
    ((10 : ℚ) ≠ 100) := by
  have h1 : midJobErr.1.progressWidth = 10 := by
    show (runTicks (startJob initialState) animateProgress [10]).1.progressWidth = 10
    norm_num [runTicks, tickStep, animateProgress, startJob, hideResult, showProgress,
      setProgress, initialState]
  have h2 : (resolveJob midJobErr.1 (.ok resp500)).progressWidth
      = midJobErr.1.progressWidth := by
    simp [resolveJob, resp500, showResult, hideProgress]
  refine ⟨h1, by rw [h2, h1], by norm_num⟩

/-- C6 witness: with one tick of 10, the pending progress is within the 90
cap and a successful resolution forces it to 100. -/
theorem progress_invariant_amended_witness :
    (runTicks (startJob initialState) animateProgress [10]).1.progressWidth ≤ 90 ∧
    respOkA.ok = true ∧ respOkA.json = .ok (some "result A") ∧
    (resolveJob (runTicks (startJob initialState) animateProgress [10]).1
        (.ok respOkA)).progressWidth = 100 :=
  ⟨(progress_invariant_amended initialState [10] respOkA).2.2.1,
   rfl, rfl,
   (progress_invariant_amended initialState [10] respOkA).2.2.2.1 rfl
     (some "result A") rfl⟩

/-- C7: the multipart body contains a `language` field with value `v` if and
only if the caller's selection is not the sentinel "auto" and `v` is exactly
that selection. -/
theorem language_field_iff (file : AudioFile) (selectedLanguage v : String) :
    ("language", v) ∈ buildFormData file selectedLanguage ↔
      (selectedLanguage ≠ "auto" ∧ v = selectedLanguage) := by
  by_cases h : selectedLanguage = "auto" <;>
    simp [buildFormData, h, Prod.ext_iff, eq_comm]

/-- C8: a non-success HTTP status resolves through the catch block with the
thrown ServerError message carrying the decimal status and the status text:
the presented result is error-flagged and its text embeds that status. -/
theorem serverError_displayed (s : AppState) (r : HttpResponse)
    (h : r.ok = false) :
    (resolveJob s (.ok r)).displayedIsError = true ∧
    (resolveJob s (.ok r)).displayedText =
      errorDisplayText ("Server error: " ++ natToDec r.status ++ " " ++ r.statusText) ∧
    (∃ pre post, (resolveJob s (.ok r)).displayedText
      = pre ++ (natToDec r.status ++ post)) := by
  have hE : (resolveJob s (.ok r)).displayedText
      = errorDisplayText (serverErrorMessage r) := by
    simp [resolveJob, h, showResult, hideProgress]
  refine ⟨by simp [resolveJob, h, showResult, hideProgress], hE, ?_⟩
  refine ⟨"Error: " ++ "Server error: ",
    " " ++ r.statusText ++ ("\n\nMake sure the Whisper server is running on " ++ API_BASE_URL), ?_⟩
  rw [hE]
  rw [errorDisplayText, serverErrorMessage]
  simp only [String.append_assoc]

/-- C8 witness: the mocked HTTP 500 of end-to-end scenario 3 yields an
error-flagged result whose text contains "500". -/
theorem serverError_displayed_witness :
    resp500.ok = false ∧
    (resolveJob initialState (.ok resp500)).displayedIsError = true ∧
    (resolveJob initialState (.ok resp500)).displayedText =
      "Error: Server error: 500 Internal Server Error\n\nMake sure the Whisper server is running on /api" := by
  refine ⟨rfl, (serverError_displayed initialState resp500 rfl).1, ?_⟩
  rw [(serverError_displayed initialState resp500 rfl).2.1]
  have h5 : natToDec (500 : Nat) = "500" := by simp [natToDec]
  rw [errorDisplayText, show resp500.status = 500 from rfl, h5]
  decide

/-- C9: a successful response whose parsed body lacks the `text` field
resolves to the literal placeholder, presented as a non-error result. -/
theorem missingText_placeholder (s : AppState) (r : HttpResponse)
    (hok : r.ok = true) (hj : r.json = .ok none) :
    (resolveJob s (.ok r)).displayedText = "No transcription available" ∧
    (resolveJob s (.ok r)).displayedIsError = false := by
  simp [resolveJob, hok, hj, jsOrString, showResult, hideProgress, setProgress]

/-- C9 witness: the concrete body without a `text` field yields the
placeholder, non-error. -/
theorem missingText_placeholder_witness :
    respNoText.ok = true ∧ respNoText.json = .ok none ∧
    (resolveJob initialState (.ok respNoText)).displayedText
      = "No transcription available" ∧
    (resolveJob initialState (.ok respNoText)).displayedIsError = false :=
  ⟨rfl, rfl, (missingText_placeholder initialState respNoText rfl rfl).1,
    (missingText_placeholder initialState respNoText rfl rfl).2⟩

/-- C10: invoking `transcribeFile` with an index at which the upload queue
has no file is a no-op: the state (progress, result, queue) is returned
unchanged and no request body is built or sent. -/
theorem transcribeFile_outOfRange (s : AppState) (i : Nat)
    (selectedLanguage : String) (f : FetchOutcome)
    (h : s.uploadedFiles.get? i = none) :
    transcribeFile s i selectedLanguage f = (s, none) := by
  unfold transcribeFile
  rw [h]

/-- C10 witness: with an empty queue, index 0 has no file and the call
returns the state unchanged with no request. -/
theorem transcribeFile_outOfRange_witness :
    initialState.uploadedFiles.get? 0 = none ∧
    transcribeFile initialState 0 "auto" (.ok resp500) = (initialState, none) :=
  ⟨rfl, transcribeFile_outOfRange initialState 0 "auto" (.ok resp500) rfl⟩

end WhisperWeb
